import Mathlib

/-!
Verification of the PhysicsLearn / CivilEye repository specification.

This file gives a shallow embedding of the parts of the code that the
specification talks about, and settles each claim against it:

* the CivilEye drawing state reducer (`drawingReducer`) and the canvas
  snap-to-grid helper (`snapToGridPoint`), embedded over `ℚ`;
* the CivilEye `Building3D` 2D-to-3D extrusion (`createWall`,
  `createLine`), embedded over `ℝ`;
* the PhysicsLearn simulation sketches (start/pause/reset control flags,
  the pendulum, wave, gravity and electric-field simulation classes),
  embedded over `ℝ`;
* the browser local-storage footprint of the site (contact form,
  registration form, mock login, theme, forum searches, performance
  toggle), embedded as a key/value store;
* the contact-form field validator (`validateField`) and the
  `useDrawing` context hook.

JavaScript numbers are modelled as `ℚ` where the code only uses field
arithmetic and rounding, and as `ℝ` where it uses square roots and
trigonometry.  JSON serialisation is abstracted as a string parameter
where only the stored key matters.
-/

namespace CivilEye

/-- A 2D point with rational coordinates (canvas coordinates). -/
structure QPoint where
  x : ℚ
  y : ℚ
  deriving DecidableEq, Repr

/-- Stroke/fill settings attached to drawn objects
(`initialState.drawingSettings` in `useDrawingContext`). -/
structure DrawingSettings where
  strokeColor : String
  fillColor : String
  strokeWidth : ℚ
  opacity : ℚ
  deriving DecidableEq, Repr

/-- Measurement settings (`initialState.measurementSettings`). -/
structure MeasurementSettings where
  unit : String
  precision : ℕ
  deriving DecidableEq, Repr

/-- Wall settings (`initialState.wallSettings`): height in feet,
thickness in inches, material name. -/
structure WallSettingsQ where
  height : ℚ
  thickness : ℚ
  material : String
  deriving DecidableEq, Repr

/-- A drawn object as created in `DrawingCanvas.handleMouseUp`: an id, a
type tag (`"line"`, `"rectangle"`, `"circle"`, `"polygon"`,
`"freehand"`), the coordinate payload and a copy of the drawing
settings.  Fields that a given type does not use are left at their
defaults. -/
structure DrawObject where
  id : ℤ
  type : String
  x : ℚ := 0
  y : ℚ := 0
  width : ℚ := 0
  height : ℚ := 0
  radius : ℚ := 0
  points : List QPoint := []
  settings : DrawingSettings
  deriving DecidableEq, Repr

/-- Canvas size (`initialState.canvasSize`). -/
structure CanvasSize where
  width : ℚ
  height : ℚ
  deriving DecidableEq, Repr

/-- The drawing context state held by `useReducer` in
`useDrawingContext` (`initialState` lists exactly these fields). -/
structure DrawingState where
  activeTool : String
  isDrawing : Bool
  currentPath : Option (List QPoint)
  objects : List DrawObject
  selectedObjects : List ℤ
  canvasSize : CanvasSize
  gridSize : ℚ
  snapToGrid : Bool
  showGrid : Bool
  zoom : ℚ
  panOffset : QPoint
  drawingSettings : DrawingSettings
  measurementSettings : MeasurementSettings
  wallSettings : WallSettingsQ
  deriving DecidableEq, Repr

/-- The initial drawing state (`initialState` in `useDrawingContext`). -/
def initialState : DrawingState where
  activeTool := "select"
  isDrawing := false
  currentPath := none
  objects := []
  selectedObjects := []
  canvasSize := { width := 800, height := 600 }
  gridSize := 20
  snapToGrid := true
  showGrid := true
  zoom := 1
  panOffset := { x := 0, y := 0 }
  drawingSettings :=
    { strokeColor := "#000000", fillColor := "transparent"
      strokeWidth := 2, opacity := 1 }
  measurementSettings := { unit := "feet", precision := 2 }
  wallSettings := { height := 10, thickness := 6, material := "concrete" }

/-- A partial update for an object, as passed to `UPDATE_OBJECT`
(the reducer merges it into the object with a spread). -/
structure ObjectPatch where
  id : Option ℤ := none
  type : Option String := none
  x : Option ℚ := none
  y : Option ℚ := none
  width : Option ℚ := none
  height : Option ℚ := none
  radius : Option ℚ := none
  points : Option (List QPoint) := none
  settings : Option DrawingSettings := none
  deriving Repr

/-- The spread `{ ...obj, ...updates }` in the `UPDATE_OBJECT` case. -/
def applyObjectPatch (obj : DrawObject) (u : ObjectPatch) : DrawObject where
  id := u.id.getD obj.id
  type := u.type.getD obj.type
  x := u.x.getD obj.x
  y := u.y.getD obj.y
  width := u.width.getD obj.width
  height := u.height.getD obj.height
  radius := u.radius.getD obj.radius
  points := u.points.getD obj.points
  settings := u.settings.getD obj.settings

/-- A partial update for the drawing settings
(`UPDATE_DRAWING_SETTINGS` payload). -/
structure DrawingSettingsPatch where
  strokeColor : Option String := none
  fillColor : Option String := none
  strokeWidth : Option ℚ := none
  opacity : Option ℚ := none
  deriving Repr

/-- The spread `{ ...state.drawingSettings, ...payload }`. -/
def applyDrawingSettingsPatch (d : DrawingSettings) (u : DrawingSettingsPatch) :
    DrawingSettings where
  strokeColor := u.strokeColor.getD d.strokeColor
  fillColor := u.fillColor.getD d.fillColor
  strokeWidth := u.strokeWidth.getD d.strokeWidth
  opacity := u.opacity.getD d.opacity

/-- A partial update for the measurement settings. -/
structure MeasurementSettingsPatch where
  unit : Option String := none
  precision : Option ℕ := none
  deriving Repr

/-- The spread `{ ...state.measurementSettings, ...payload }`. -/
def applyMeasurementSettingsPatch (d : MeasurementSettings)
    (u : MeasurementSettingsPatch) : MeasurementSettings where
  unit := u.unit.getD d.unit
  precision := u.precision.getD d.precision

/-- A partial update for the wall settings. -/
structure WallSettingsPatch where
  height : Option ℚ := none
  thickness : Option ℚ := none
  material : Option String := none
  deriving Repr

/-- The spread `{ ...state.wallSettings, ...payload }`. -/
def applyWallSettingsPatch (d : WallSettingsQ) (u : WallSettingsPatch) :
    WallSettingsQ where
  height := u.height.getD d.height
  thickness := u.thickness.getD d.thickness
  material := u.material.getD d.material

/-- The actions dispatched to `drawingReducer` (one constructor per
`ACTION_TYPES` entry, with the payload the provider passes). -/
inductive DrawingAction where
  | setActiveTool (tool : String)
  | setDrawingState (isDrawing : Bool) (currentPath : Option (List QPoint))
  | addObject (obj : DrawObject)
  | updateObject (id : ℤ) (updates : ObjectPatch)
  | deleteObject (id : ℤ)
  | selectObject (id : ℤ)
  | clearSelection
  | setCanvasSize (size : CanvasSize)
  | setGridSettings (gridSize : ℚ) (snapToGrid : Bool) (showGrid : Bool)
  | setZoom (zoom : ℚ)
  | setPan (offset : QPoint)
  | updateDrawingSettings (u : DrawingSettingsPatch)
  | updateMeasurementSettings (u : MeasurementSettingsPatch)
  | updateWallSettings (u : WallSettingsPatch)
  | clearCanvas

/-- The reducer `drawingReducer(state, action)` from
`useDrawingContext`, case by case. -/
def drawingReducer (state : DrawingState) (action : DrawingAction) :
    DrawingState :=
  match action with
  | .setActiveTool tool =>
      { state with activeTool := tool, selectedObjects := [] }
  | .setDrawingState isDrawing currentPath =>
      { state with isDrawing := isDrawing, currentPath := currentPath }
  | .addObject obj =>
      { state with objects := state.objects ++ [obj], currentPath := none }
  | .updateObject id updates =>
      { state with objects := state.objects.map fun obj =>
          if obj.id = id then applyObjectPatch obj updates else obj }
  | .deleteObject id =>
      { state with
          objects := state.objects.filter fun obj => obj.id ≠ id
          selectedObjects := state.selectedObjects.filter fun i => i ≠ id }
  | .selectObject objectId =>
      if objectId ∈ state.selectedObjects then
        { state with
            selectedObjects :=
              state.selectedObjects.filter fun i => i ≠ objectId }
      else
        { state with
            selectedObjects := state.selectedObjects ++ [objectId] }
  | .clearSelection => { state with selectedObjects := [] }
  | .setCanvasSize size => { state with canvasSize := size }
  | .setGridSettings gridSize snapToGrid showGrid =>
      { state with gridSize := gridSize, snapToGrid := snapToGrid,
                   showGrid := showGrid }
  | .setZoom zoom => { state with zoom := zoom }
  | .setPan offset => { state with panOffset := offset }
  | .updateDrawingSettings u =>
      { state with
          drawingSettings := applyDrawingSettingsPatch state.drawingSettings u }
  | .updateMeasurementSettings u =>
      { state with
          measurementSettings :=
            applyMeasurementSettingsPatch state.measurementSettings u }
  | .updateWallSettings u =>
      { state with
          wallSettings := applyWallSettingsPatch state.wallSettings u }
  | .clearCanvas =>
      { state with objects := [], selectedObjects := [], currentPath := none }

/-- The `snapToGridPoint` helper of `DrawingCanvas`: identity when
`snapToGrid` is off, otherwise round each coordinate to the nearest
multiple of `gridSize` (`Math.round(point.x / gridSize) * gridSize`,
and `round x = ⌊x + 1/2⌋` matches `Math.round`). -/
def snapToGridPoint (snapToGrid : Bool) (gridSize : ℚ) (point : QPoint) :
    QPoint :=
  if !snapToGrid then point
  else
    { x := round (point.x / gridSize) * gridSize
      y := round (point.y / gridSize) * gridSize }

end CivilEye

namespace Building3D

/-- A 2D point with real coordinates, as handed to `Building3D`. -/
structure RPoint where
  x : ℝ
  y : ℝ

/-- A 3D vector (a three.js position). -/
structure Vec3 where
  x : ℝ
  y : ℝ
  z : ℝ

/-- Wall settings as used by `Building3D` (height in feet, thickness in
inches). -/
structure WallSettings where
  height : ℝ
  thickness : ℝ
  material : String

/-- A rectangle object (`type: 'rectangle'`): anchor corner plus signed
width and height. -/
structure RectObj where
  x : ℝ
  y : ℝ
  width : ℝ
  height : ℝ

/-- A line object (`type: 'line'`): its two endpoints
(`obj.points[0]` and `obj.points[1]`). -/
structure LineObj where
  p0 : RPoint
  p1 : RPoint

/-- A `boxGeometry` mesh: the three `args` extents (x, y, z), the
`position`, and the rotation about the vertical (y) axis. -/
structure BoxMesh where
  sizeX : ℝ
  sizeY : ℝ
  sizeZ : ℝ
  pos : Vec3
  rotY : ℝ

/-- The pair of meshes a wall component renders (main wall and floor
strip). -/
structure WallComponent where
  wall : BoxMesh
  floor : BoxMesh

/-- Two-argument arctangent with the `Math.atan2(y, x)` convention
(range `(-π, π]`, measured from the positive x axis). -/
noncomputable def atan2 (y x : ℝ) : ℝ :=
  if 0 < x then Real.arctan (y / x)
  else if x < 0 then
    (if 0 ≤ y then Real.arctan (y / x) + Real.pi
     else Real.arctan (y / x) - Real.pi)
  else if 0 < y then Real.pi / 2
  else if y < 0 then -(Real.pi / 2)
  else 0

/-- Source `createWall(obj, wallSettings, ...)`: a rectangle object becomes a
single box of extents `[|obj.width|, height, thickness/12]` positioned
at `(obj.x + obj.width/2, height/2, obj.y + obj.height/2)`, plus a
floor strip of the same footprint. -/
noncomputable def createWall (obj : RectObj) (ws : WallSettings) :
    WallComponent :=
  let thickness := ws.thickness / 12
  let height := ws.height
  { wall :=
      { sizeX := |obj.width|, sizeY := height, sizeZ := thickness
        pos :=
          { x := obj.x + obj.width / 2, y := height / 2
            z := obj.y + obj.height / 2 }
        rotY := 0 }
    floor :=
      { sizeX := |obj.width|, sizeY := 1 / 10, sizeZ := thickness
        pos :=
          { x := obj.x + obj.width / 2, y := 0
            z := obj.y + obj.height / 2 }
        rotY := 0 } }

/-- Source `createLine(obj, wallSettings, ...)`: a line object becomes a box of
extents `[length, height, thickness/12]` centred at the midpoint of its
endpoints and rotated by `-atan2(dy, dx)` about the vertical axis. -/
noncomputable def createLine (obj : LineObj) (ws : WallSettings) :
    WallComponent :=
  let thickness := ws.thickness / 12
  let height := ws.height
  let s := obj.p0
  let e := obj.p1
  let length := Real.sqrt ((e.x - s.x) ^ 2 + (e.y - s.y) ^ 2)
  let angle := atan2 (e.y - s.y) (e.x - s.x)
  { wall :=
      { sizeX := length, sizeY := height, sizeZ := thickness
        pos :=
          { x := (s.x + e.x) / 2, y := height / 2, z := (s.y + e.y) / 2 }
        rotY := -angle }
    floor :=
      { sizeX := length, sizeY := 1 / 10, sizeZ := thickness
        pos :=
          { x := (s.x + e.x) / 2, y := 0, z := (s.y + e.y) / 2 }
        rotY := -angle } }

/-- Euclidean distance between two 2D points, following the
specification wording for the line extrusion. -/
noncomputable def euclideanDist (p q : RPoint) : ℝ :=
  Real.sqrt ((q.x - p.x) ^ 2 + (q.y - p.y) ^ 2)

/-- A point of the plane lies in the 2D area of a rectangle object
(whose width or height may be negative). -/
def rectContains (r : RectObj) (px pz : ℝ) : Prop :=
  min r.x (r.x + r.width) ≤ px ∧ px ≤ max r.x (r.x + r.width) ∧
  min r.y (r.y + r.height) ≤ pz ∧ pz ≤ max r.y (r.y + r.height)

/-- A point of the plane lies under the horizontal footprint of a box
mesh (no rotation). -/
def boxFootprintContains (b : BoxMesh) (px pz : ℝ) : Prop :=
  |px - b.pos.x| ≤ b.sizeX / 2 ∧ |pz - b.pos.z| ≤ b.sizeZ / 2

/-- The property claimed of `createWall`: the wall box has horizontal
extents `|width|` and `|height|` (in some order) and its footprint
covers the whole 2D area of the rectangle. -/
noncomputable def claimSameFootprint (r : RectObj) (ws : WallSettings) :
    Prop :=
  let b := (createWall r ws).wall
  ((b.sizeX = |r.width| ∧ b.sizeZ = |r.height|) ∨
   (b.sizeX = |r.height| ∧ b.sizeZ = |r.width|)) ∧
  ∀ px pz, rectContains r px pz → boxFootprintContains b px pz

end Building3D

namespace Simulations

/-- The state closed over by each p5 sketch in `simulations.js`: the
`isRunning` flag and the simulation object's own physical state. -/
structure SketchState (σ : Type) where
  running : Bool
  phys : σ

/-- The events a sketch handles: an animation frame (`p.draw`), and the
`start`, `pause` and `reset` controls registered in
`this.simulations.set(...)`. -/
inductive SimEvent where
  | frame
  | start
  | pause
  | reset
  deriving DecidableEq, Repr

/-- One step of a sketch, parametric in the simulation's `update` and
`reset` methods: `p.draw` runs `update()` only when `isRunning` (then
calls the pure `display()`); `start` and `pause` only set the flag;
the `reset` control calls `reset()` and clears the flag. -/
def stepEvent {σ : Type} (update resetFn : σ → σ) (s : SketchState σ) :
    SimEvent → SketchState σ
  | .frame => if s.running then { s with phys := update s.phys } else s
  | .start => { s with running := true }
  | .pause => { s with running := false }
  | .reset => { running := false, phys := resetFn s.phys }

/-- Run a sketch over a sequence of events. -/
def runEvents {σ : Type} (update resetFn : σ → σ)
    (events : List SimEvent) (s : SketchState σ) : SketchState σ :=
  events.foldl (stepEvent update resetFn) s

/-- A 2D point with real coordinates (a canvas trail point). -/
structure RPt where
  x : ℝ
  y : ℝ

/-- The state of `PendulumSimulation`: physical parameters, the angular
state, the pivot, the bob trail and the (possibly still unset)
configured initial angle. -/
structure PendState where
  length : ℝ
  gravity : ℝ
  angle : ℝ
  angleVel : ℝ
  angleAcc : ℝ
  damping : ℝ
  cx : ℝ
  cy : ℝ
  trail : List RPt
  maxTrailLength : ℕ
  initialAngle : Option ℝ

open Classical in
/-- JavaScript `a || d` for a possibly-undefined number `a`: the default
is used when `a` is undefined or `0` (both falsy). -/
noncomputable def jsOrReal (a : Option ℝ) (d : ℝ) : ℝ :=
  match a with
  | none => d
  | some v => if v = 0 then d else v

/-- Source `PendulumSimulation.reset()`: restore the angle to
`this.initialAngle || PI / 6`, zero the velocity and acceleration, and
empty the trail. -/
noncomputable def pendReset (s : PendState) : PendState :=
  { s with
      angle := jsOrReal s.initialAngle (Real.pi / 6)
      angleVel := 0
      angleAcc := 0
      trail := [] }

/-- The `PendulumSimulation` constructor (which ends by calling
`reset()`). -/
noncomputable def pendInit (width : ℝ) : PendState :=
  pendReset
    { length := 150
      gravity := 98 / 10
      angle := Real.pi / 6
      angleVel := 0
      angleAcc := 0
      damping := 999 / 1000
      cx := width / 2
      cy := 50
      trail := []
      maxTrailLength := 50
      initialAngle := none }

open Classical in
/-- Source `PendulumSimulation.update()`: Euler-step the damped pendulum, then
push the bob position onto the trail and `shift()` the oldest point
when the trail exceeds `maxTrailLength`. -/
noncomputable def pendUpdate (s : PendState) : PendState :=
  let angleAcc := (-s.gravity / (s.length * 10)) * Real.sin s.angle
  let angleVel := (s.angleVel + angleAcc) * s.damping
  let angle := s.angle + angleVel
  let x := s.cx + s.length * Real.sin angle
  let y := s.cy + s.length * Real.cos angle
  let pushed := s.trail ++ [RPt.mk x y]
  { s with
      angleAcc := angleAcc
      angleVel := angleVel
      angle := angle
      trail := if s.maxTrailLength < pushed.length then pushed.tail else pushed }

/-- Source `setLength(length)`: store `length * 100` (metres to pixels). -/
def pendSetLength (v : ℝ) (s : PendState) : PendState :=
  { s with length := v * 100 }

/-- Source `setGravity(gravity)`. -/
def pendSetGravity (v : ℝ) (s : PendState) : PendState :=
  { s with gravity := v }

/-- Source `setInitialAngle(angle)`: record the configured angle and reset. -/
noncomputable def pendSetInitialAngle (v : ℝ) (s : PendState) : PendState :=
  pendReset { s with initialAngle := some v }

/-- The operations callable on a `PendulumSimulation` object. -/
inductive PendOp where
  | update
  | reset
  | setLength (v : ℝ)
  | setInitialAngle (v : ℝ)
  | setGravity (v : ℝ)

/-- Apply one pendulum operation. -/
noncomputable def applyPendOp (s : PendState) : PendOp → PendState
  | .update => pendUpdate s
  | .reset => pendReset s
  | .setLength v => pendSetLength v s
  | .setInitialAngle v => pendSetInitialAngle v s
  | .setGravity v => pendSetGravity v s

/-- Apply a sequence of pendulum operations. -/
noncomputable def applyPendOps (ops : List PendOp) (s : PendState) :
    PendState :=
  ops.foldl applyPendOp s

/-- The state of `WaveInterferenceSimulation`. -/
structure WaveState where
  width : ℝ
  height : ℝ
  time : ℝ
  frequency1 : ℝ
  frequency2 : ℝ
  amplitude : ℝ
  sources : List RPt

/-- Source `WaveInterferenceSimulation.update()`: advance time by one. -/
def waveUpdate (s : WaveState) : WaveState :=
  { s with time := s.time + 1 }

/-- Source `WaveInterferenceSimulation.reset()`: set time back to zero. -/
def waveReset (s : WaveState) : WaveState :=
  { s with time := 0 }

/-- One orbiting particle of `GravitySimulation`. -/
structure GravParticle where
  angle : ℝ
  distance : ℝ
  speed : ℝ
  trail : List RPt

/-- The state of `GravitySimulation`. -/
structure GravState where
  width : ℝ
  height : ℝ
  centralMass : ℝ
  speed : ℝ
  particles : List GravParticle

/-- Source `GravitySimulation.createParticles(count)`: evenly spaced starting
angles, increasing orbital radii, circular-orbit speeds, empty trails. -/
noncomputable def gravCreateParticles (centralMass : ℝ) (count : ℕ) :
    List GravParticle :=
  (List.range count).map fun i =>
    let distance : ℝ := 60 + i * 15
    { angle := (2 * Real.pi / count) * i
      distance := distance
      speed := Real.sqrt (centralMass / distance) * (2 / 100)
      trail := [] }

/-- The `GravitySimulation` constructor (5 particles, central mass
100, speed 1). -/
noncomputable def gravInit (width height : ℝ) : GravState :=
  { width := width
    height := height
    centralMass := 100
    speed := 1
    particles := gravCreateParticles 100 5 }

/-- Source `GravitySimulation.update()`: advance each particle's angle by its
orbital speed times the global speed factor, push the new canvas
position onto its trail, and `shift()` the oldest point when the trail
exceeds 30 points. -/
noncomputable def gravUpdate (s : GravState) : GravState :=
  let centerX := s.width / 2
  let centerY := s.height / 2
  { s with
      particles := s.particles.map fun particle =>
        let angle := particle.angle + particle.speed * s.speed
        let x := centerX + Real.cos angle * particle.distance
        let y := centerY + Real.sin angle * particle.distance
        let pushed := particle.trail ++ [RPt.mk x y]
        { particle with
            angle := angle
            trail := if 30 < pushed.length then pushed.tail else pushed } }

/-- Source `GravitySimulation.reset()`: empty every particle's trail and give
it a fresh random angle; the random draws (one per particle, in
`Math.random()` units) are passed in explicitly. -/
noncomputable def gravReset (draw : ℕ → ℝ) (s : GravState) : GravState :=
  { s with
      particles := s.particles.mapIdx fun i pt =>
        { pt with trail := [], angle := draw i * (2 * Real.pi) } }

/-- The state of `ElectricFieldSimulation`. -/
structure ElecState where
  width : ℝ
  height : ℝ
  charge1 : ℝ
  charge2 : ℝ
  showLines : Bool
  fieldLines : List (List RPt)

open Classical in
/-- Source `ElectricFieldSimulation.calculateFieldAt(x, y)`: superpose the
inverse-square fields of the two charges (fixed at 30% and 70% of the
width, half height), guarding each against zero distance. -/
noncomputable def calculateFieldAt (w h c1 c2 x y : ℝ) : RPt :=
  let c1x := w * (3 / 10)
  let c1y := h * (5 / 10)
  let c2x := w * (7 / 10)
  let c2y := h * (5 / 10)
  let dx1 := x - c1x
  let dy1 := y - c1y
  let r1 := Real.sqrt (dx1 * dx1 + dy1 * dy1)
  let fx1 := if 0 < r1 then c1 / (r1 * r1) * dx1 / r1 else 0
  let fy1 := if 0 < r1 then c1 / (r1 * r1) * dy1 / r1 else 0
  let dx2 := x - c2x
  let dy2 := y - c2y
  let r2 := Real.sqrt (dx2 * dx2 + dy2 * dy2)
  let fx2 := if 0 < r2 then c2 / (r2 * r2) * dx2 / r2 else 0
  let fy2 := if 0 < r2 then c2 / (r2 * r2) * dy2 / r2 else 0
  { x := fx1 + fx2, y := fy1 + fy2 }

open Classical in
/-- The inner tracing loop of `generateFieldLines`: push the current
point, step 3 units along the normalised field, and stop when the new
position leaves the canvas (at most `fuel` = 50 points). -/
noncomputable def traceFieldLine (w h c1 c2 : ℝ) :
    ℕ → ℝ → ℝ → List RPt
  | 0, _, _ => []
  | fuel + 1, x, y =>
      let f := calculateFieldAt w h c1 c2 x y
      let m := Real.sqrt (f.x * f.x + f.y * f.y)
      let x' := if 0 < m then x + f.x / m * 3 else x
      let y' := if 0 < m then y + f.y / m * 3 else y
      if x' < 0 ∨ w < x' ∨ y' < 0 ∨ h < y' then [RPt.mk x y]
      else RPt.mk x y :: traceFieldLine w h c1 c2 fuel x' y'

open Classical in
/-- Source `ElectricFieldSimulation.generateFieldLines()`: when charge 1 is
positive, trace one line from each of 12 starting angles around it
(radius 10); otherwise no lines. -/
noncomputable def generateFieldLines (w h c1 c2 : ℝ) :
    List (List RPt) :=
  if 0 < c1 then
    (List.range 12).map fun k =>
      let angle := (2 * Real.pi / 12) * k
      traceFieldLine w h c1 c2 50
        (w * (3 / 10) + Real.cos angle * 10)
        (h * (5 / 10) + Real.sin angle * 10)
  else []

/-- Source `ElectricFieldSimulation.update()`: the field is static. -/
def elecUpdate (s : ElecState) : ElecState := s

/-- Source `ElectricFieldSimulation.reset()`: regenerate the field lines from
the current charges and canvas size. -/
noncomputable def elecReset (s : ElecState) : ElecState :=
  { s with
      fieldLines := generateFieldLines s.width s.height s.charge1 s.charge2 }

end Simulations

namespace Storage

/-- Browser local storage, modelled as a key/value association list
(latest binding first). -/
abbrev Store : Type := List (String × String)

/-- Source `localStorage.setItem(key, value)`. -/
def setItem (key value : String) (s : Store) : Store :=
  (key, value) :: List.filter (fun kv => kv.1 ≠ key) s

/-- Source `localStorage.getItem(key)` (`none` for a missing key): the value
of the first binding of the key. -/
def getItem (key : String) : Store → Option String
  | [] => none
  | kv :: tl => if kv.1 = key then some kv.2 else getItem key tl

/-- Source `localStorage.removeItem(key)`. -/
def removeItem (key : String) (s : Store) : Store :=
  List.filter (fun kv => kv.1 ≠ key) s

/-- Source `ContactManager.autoSaveFormData`: save the serialised contact form
draft under `contact_form_draft`. -/
def contactAutoSave (draft : String) : Store → Store :=
  setItem "contact_form_draft" draft

/-- Source `ContactManager.clearSavedFormData`. -/
def contactClearSaved : Store → Store :=
  removeItem "contact_form_draft"

/-- The storage write in `ContactManager.submitContactForm`: append the
submitted message to the stored list under `contact_messages` (the
serialised updated list is passed in). -/
def submitContactFormStore (messages : String) : Store → Store :=
  setItem "contact_messages" messages

/-- Source `AuthManager.autoSaveFormData` (in `auth.js`): save the serialised
registration draft (passwords removed) under `registration_draft`. -/
def registrationAutoSave (draft : String) : Store → Store :=
  setItem "registration_draft" draft

/-- The storage writes in `simulateRegistration` (in `auth.js`): the
serialised user data and a pending flag. -/
def simulateRegistrationStore (userData : String) (s : Store) : Store :=
  setItem "registration_pending" "true" (setItem "user_data" userData s)

/-- The storage writes in `simulateLogin` (in `auth.js`): only on the
demo credentials, store a token (suffixed with the current time) and
the email; otherwise the store is untouched (the call throws). -/
def simulateLoginStore (email password now : String) (s : Store) : Store :=
  if email = "demo@physicslearn.com" ∧ password = "demo123" then
    setItem "user_email" email (setItem "user_token" ("token_" ++ now) s)
  else s

/-- Source `toggleTheme` (in `main.js`): persist the current theme. -/
def toggleThemeStore (isDark : Bool) : Store → Store :=
  setItem "theme" (if isDark then "dark" else "light")

/-- Source `trackSearchAnalytics` (forum): persist the serialised list of the
ten most recent searches under `forum_recent_searches`. -/
def trackSearchAnalyticsStore (limitedSearches : String) : Store → Store :=
  setItem "forum_recent_searches" limitedSearches

/-- Source `PerformanceToggle.saveUserPreference`: persist the chosen
performance mode. -/
def saveUserPreference (isAdvancedMode : Bool) : Store → Store :=
  setItem "physicslearn-performance-mode"
    (if isAdvancedMode then "advanced" else "performance")

/-- Every key any code path of the repository ever passes to
`localStorage.setItem`. -/
def allStorageWriteKeys : List String :=
  ["contact_form_draft", "contact_messages", "registration_draft",
   "user_data", "registration_pending", "user_token", "user_email",
   "theme", "forum_recent_searches", "physicslearn-performance-mode"]

/-- The keys holding plain key/value form drafts (the contact form and
the registration form). -/
def formDraftKeys : List String :=
  ["contact_form_draft", "registration_draft"]

end Storage

namespace Validation

/-- The drawing context value consumed through `useDrawing` (the
provider exposes the reducer state; the action creators are
behaviour, not data). -/
def DrawingCtx : Type := CivilEye.DrawingState

/-- The `useDrawing` hook: return the context when inside a
`DrawingProvider`, otherwise throw
`Error('useDrawing must be used within a DrawingProvider')`. -/
def useDrawing (ctx : Option DrawingCtx) : Except String DrawingCtx :=
  match ctx with
  | none => Except.error "useDrawing must be used within a DrawingProvider"
  | some c => Except.ok c

/-- A form field as seen by `ContactManager.validateField`: its `name`
attribute, its current value and whether it carries `required`. -/
structure FormField where
  name : String
  value : String
  required : Bool

/-- The email regular expression of `isValidEmail`
(`/^[^\s@]+@[^\s@]+\.[^\s@]+$/`): no whitespace anywhere, exactly one
`@` which is not first, and after it a dot that is neither directly
after the `@` nor last. -/
def isValidEmail (email : String) : Bool :=
  let cs := email.toList
  let good := fun (c : Char) => !c.isWhitespace && c != '@'
  match cs.findIdx? (fun c => c = '@') with
  | none => false
  | some i =>
      let before := cs.take i
      let after := cs.drop (i + 1)
      !before.isEmpty && !after.isEmpty &&
      before.all good && after.all good &&
      ((after.drop 1).dropLast.contains '.')

/-- The phone regular expression of `isValidPhone`
(`/^[\+]?[1-9]?\d{9,15}$/`, applied after stripping whitespace): an
optional `+`, then digits only, 9 to 15 of them, or 16 when the first
is nonzero. -/
def isValidPhone (phone : String) : Bool :=
  let stripped := (phone.toList.filter (fun c => !c.isWhitespace))
  let digits := match stripped with
    | '+' :: rest => rest
    | rest => rest
  digits.all (fun c => c.isDigit) &&
  ((9 ≤ digits.length && digits.length ≤ 15) ||
   (digits.length = 16 && digits.headD '0' ≠ '0'))

/-- Source `ContactManager.validateField`: returns the validity flag together
with the error message shown in the field's `.error-message` element
(empty when valid); it never throws. -/
def validateField (field : FormField) : Bool × String :=
  let value := field.value.trim
  if field.required && value = "" then
    (false, "This field is required")
  else if value ≠ "" then
    if field.name = "email" then
      if !isValidEmail value then
        (false, "Please enter a valid email address")
      else (true, "")
    else if field.name = "name" then
      if value.length < 2 then
        (false, "Name must be at least 2 characters long")
      else (true, "")
    else if field.name = "phone" then
      if !isValidPhone value then
        (false, "Please enter a valid phone number")
      else (true, "")
    else if field.name = "message" then
      if value.length < 10 then
        (false, "Message must be at least 10 characters long")
      else (true, "")
    else (true, "")
  else (true, "")

/-- The outcome `handleLogin` (in `auth.js`) surfaces to the user. -/
inductive LoginOutcome where
  | redirected (token : String)
  | errorShown (message : String)
  deriving DecidableEq, Repr

/-- Source `simulateLogin` (in `auth.js`): resolve with a token on the demo
credentials, otherwise throw `Error('Invalid credentials')`. -/
def simulateLogin (email password : String) : Except String String :=
  if email = "demo@physicslearn.com" && password = "demo123" then
    Except.ok "demo_token"
  else Except.error "Invalid credentials"

/-- Source `handleLogin` (in `auth.js`): await `simulateLogin` inside
`try/catch`; a rejection is caught and surfaced as a form error
message, never rethrown. -/
def handleLogin (email password : String) : LoginOutcome :=
  match simulateLogin email password with
  | Except.ok token => LoginOutcome.redirected token
  | Except.error _ =>
      LoginOutcome.errorShown "Invalid email or password. Please try again."

end Validation

/-!
The claims, settled against the embedding above.
-/

/-- C1 counterexample: for the rectangle at the origin with width 4 and
height 10, under wall settings of height 10 ft and thickness 6 in, the
wall box produced by `createWall` does not have horizontal extents
`|width|` and `|height|`, and its footprint misses the rectangle's
corner `(0, 0)`: the second horizontal extent is the wall thickness
`6/12` ft, and the strip around the centre line `z = 5` does not cover
the rectangle's area. -/
theorem createWall_footprint_counterexample :
    ¬ Building3D.claimSameFootprint ⟨0, 0, 4, 10⟩ ⟨10, 6, "concrete"⟩ := by
  intro h
  simp only [Building3D.claimSameFootprint] at h
  have h0 := h.2 0 0 (by norm_num [Building3D.rectContains])
  have h5 : |(0 : ℝ) - (0 + 10 / 2)| ≤ (6 / 12) / 2 := by
    simpa [Building3D.createWall, Building3D.boxFootprintContains] using h0.2
  norm_num at h5

/-- C1 (amended): `createWall` turns a rectangle into a single wall box
whose horizontal extents are `|width|` and `thickness/12` (inches
converted to feet) — not `|width|` and `|height|` — of vertical extent
`wallSettings.height`, centred over the rectangle's centre
`(x + width/2, y + height/2)`. -/
theorem createWall_wall_box_spec (r : Building3D.RectObj)
    (ws : Building3D.WallSettings) :
    ((Building3D.createWall r ws).wall.sizeX = |r.width|) ∧
    ((Building3D.createWall r ws).wall.sizeY = ws.height) ∧
    ((Building3D.createWall r ws).wall.sizeZ = ws.thickness / 12) ∧
    ((Building3D.createWall r ws).wall.pos.x = r.x + r.width / 2) ∧
    ((Building3D.createWall r ws).wall.pos.y = ws.height / 2) ∧
    ((Building3D.createWall r ws).wall.pos.z = r.y + r.height / 2) :=
  ⟨rfl, rfl, rfl, rfl, rfl, rfl⟩

/-- C2: `createLine` extrudes a line object into a box whose length is
the Euclidean distance between the endpoints, whose height is
`wallSettings.height`, whose depth is `wallSettings.thickness / 12`
(inches converted to feet), centred at the midpoint of the endpoints,
rotated about the vertical axis by `-atan2(p1.y - p0.y, p1.x - p0.x)`. -/
theorem createLine_extrusion_spec (obj : Building3D.LineObj)
    (ws : Building3D.WallSettings) :
    ((Building3D.createLine obj ws).wall.sizeX
        = Building3D.euclideanDist obj.p0 obj.p1) ∧
    ((Building3D.createLine obj ws).wall.sizeY = ws.height) ∧
    ((Building3D.createLine obj ws).wall.sizeZ = ws.thickness / 12) ∧
    ((Building3D.createLine obj ws).wall.pos.x = (obj.p0.x + obj.p1.x) / 2) ∧
    ((Building3D.createLine obj ws).wall.pos.y = ws.height / 2) ∧
    ((Building3D.createLine obj ws).wall.pos.z = (obj.p0.y + obj.p1.y) / 2) ∧
    ((Building3D.createLine obj ws).wall.rotY
        = -(Building3D.atan2 (obj.p1.y - obj.p0.y) (obj.p1.x - obj.p0.x))) :=
  ⟨rfl, rfl, rfl, rfl, rfl, rfl, rfl⟩

/-- C3: in `drawingReducer`, `ADD_OBJECT` appends the new object at the
end of the objects list (every existing object unchanged, in order),
and `DELETE_OBJECT` with id `k` removes exactly the objects whose id
equals `k` (all others unchanged, in order) and removes `k` from
`selectedObjects`. -/
theorem addObject_appends_deleteObject_removes
    (s : CivilEye.DrawingState) (obj : CivilEye.DrawObject) (k : ℤ) :
    ((CivilEye.drawingReducer s (CivilEye.DrawingAction.addObject obj)).objects
        = s.objects ++ [obj]) ∧
    ((CivilEye.drawingReducer s (CivilEye.DrawingAction.deleteObject k)).objects
        = s.objects.filter fun o => o.id ≠ k) ∧
    ((CivilEye.drawingReducer s
        (CivilEye.DrawingAction.deleteObject k)).objects.all
          (fun o => o.id ≠ k) = true) ∧
    ((CivilEye.drawingReducer s
        (CivilEye.DrawingAction.deleteObject k)).selectedObjects
          = s.selectedObjects.filter fun i => i ≠ k) := by
  refine ⟨rfl, rfl, ?_, rfl⟩
  simp only [List.all_eq_true]
  intro o ho
  simp only [CivilEye.drawingReducer] at ho
  exact (List.mem_filter.mp ho).2

/-- C8: for a nonzero grid size, `snapToGridPoint` is idempotent on
every point; with `snapToGrid` enabled its result has both coordinates
integer multiples of `gridSize`, and with `snapToGrid` disabled it is
the identity. -/
theorem snapToGridPoint_idempotent_aligned
    (g : ℚ) (hg : g ≠ 0) (snap : Bool) (p : CivilEye.QPoint) :
    (CivilEye.snapToGridPoint snap g (CivilEye.snapToGridPoint snap g p)
        = CivilEye.snapToGridPoint snap g p) ∧
    (snap = true → ∃ m n : ℤ,
        CivilEye.snapToGridPoint snap g p = { x := m * g, y := n * g }) ∧
    (snap = false → CivilEye.snapToGridPoint snap g p = p) := by
  cases snap with
  | false => exact ⟨rfl, by simp, fun _ => rfl⟩
  | true =>
    refine ⟨?_, fun _ => ⟨round (p.x / g), round (p.y / g), rfl⟩, by simp⟩
    simp only [CivilEye.snapToGridPoint, Bool.not_true, Bool.false_eq_true,
      if_false]
    rw [mul_div_cancel_right₀ _ hg, mul_div_cancel_right₀ _ hg,
      round_intCast, round_intCast]

/-- Witness for `snapToGridPoint_idempotent_aligned` at grid size 20
and the point `(7, 13)`. -/
theorem snapToGridPoint_idempotent_aligned_witness :
    (20 : ℚ) ≠ 0 ∧
    CivilEye.snapToGridPoint true 20 (CivilEye.snapToGridPoint true 20 ⟨7, 13⟩)
      = CivilEye.snapToGridPoint true 20 ⟨7, 13⟩ :=
  ⟨by norm_num,
   (snapToGridPoint_idempotent_aligned 20 (by norm_num) true ⟨7, 13⟩).1⟩

/-- C9 counterexample: on the state whose selection is `[1, 2, 3]`,
dispatching `SELECT_OBJECT 2` twice yields `[1, 3, 2]`, not the
original `[1, 2, 3]`: the first dispatch removes `2` and the second
appends it at the end. -/
theorem selectObject_twice_reorders :
    ((CivilEye.drawingReducer
        (CivilEye.drawingReducer
          { CivilEye.initialState with selectedObjects := [1, 2, 3] }
          (CivilEye.DrawingAction.selectObject 2))
        (CivilEye.DrawingAction.selectObject 2)).selectedObjects
      = [1, 3, 2]) ∧
    [1, 3, 2] ≠ ([1, 2, 3] : List ℤ) :=
  ⟨rfl, by decide⟩

/-- Dispatching `SELECT_OBJECT` with a selected id filters it out of the
selection (helper). -/
theorem drawingReducer_select_mem (t : CivilEye.DrawingState) (k : ℤ)
    (h : k ∈ t.selectedObjects) :
    CivilEye.drawingReducer t (CivilEye.DrawingAction.selectObject k)
      = { t with selectedObjects := t.selectedObjects.filter fun i => i ≠ k } := by
  simp [CivilEye.drawingReducer, h]

/-- Dispatching `SELECT_OBJECT` with an unselected id appends it to the
selection (helper). -/
theorem drawingReducer_select_not_mem (t : CivilEye.DrawingState) (k : ℤ)
    (h : k ∉ t.selectedObjects) :
    CivilEye.drawingReducer t (CivilEye.DrawingAction.selectObject k)
      = { t with selectedObjects := t.selectedObjects ++ [k] } := by
  simp [CivilEye.drawingReducer, h]

/-- C9 (amended): `SELECT_OBJECT` toggles membership — an id already in
`selectedObjects` is removed (every occurrence), an absent id is
appended — and never touches the objects list.  Dispatching it twice
with the same id restores `selectedObjects` exactly when the id was not
selected; when it was selected (and the selection has no duplicates)
the double dispatch yields a permutation of the original selection,
with the id moved to the end. -/
theorem selectObject_toggles_membership
    (s : CivilEye.DrawingState) (k : ℤ) :
    ((CivilEye.drawingReducer s (CivilEye.DrawingAction.selectObject k)).objects
        = s.objects) ∧
    (k ∈ s.selectedObjects →
      (CivilEye.drawingReducer s
          (CivilEye.DrawingAction.selectObject k)).selectedObjects
        = s.selectedObjects.filter fun i => i ≠ k) ∧
    (k ∉ s.selectedObjects →
      (CivilEye.drawingReducer s
          (CivilEye.DrawingAction.selectObject k)).selectedObjects
        = s.selectedObjects ++ [k]) ∧
    (k ∉ s.selectedObjects →
      (CivilEye.drawingReducer
          (CivilEye.drawingReducer s (CivilEye.DrawingAction.selectObject k))
          (CivilEye.DrawingAction.selectObject k)).selectedObjects
        = s.selectedObjects) ∧
    (k ∈ s.selectedObjects → s.selectedObjects.Nodup →
      List.Perm
        ((CivilEye.drawingReducer
            (CivilEye.drawingReducer s (CivilEye.DrawingAction.selectObject k))
            (CivilEye.DrawingAction.selectObject k)).selectedObjects)
        s.selectedObjects) := by
  by_cases h : k ∈ s.selectedObjects
  · refine ⟨by rw [drawingReducer_select_mem s k h],
      fun _ => by rw [drawingReducer_select_mem s k h],
      fun hk => absurd h hk,
      fun hk => absurd h hk,
      fun _ hnd => ?_⟩
    have hknot : k ∉ s.selectedObjects.filter fun i => i ≠ k := by
      intro hc
      simpa using (List.mem_filter.mp hc).2
    rw [drawingReducer_select_mem s k h,
      drawingReducer_select_not_mem _ k hknot]
    show List.Perm ((s.selectedObjects.filter fun i => i ≠ k) ++ [k])
      s.selectedObjects
    have herase : (s.selectedObjects.filter fun i => i ≠ k)
        = s.selectedObjects.erase k := by
      rw [List.Nodup.erase_eq_filter hnd k]
      apply List.filter_congr
      intro i _
      by_cases hik : i = k <;> simp [hik]
    refine (List.perm_append_singleton _ _).trans ?_
    rw [herase]
    exact (List.perm_cons_erase h).symm
  · refine ⟨by rw [drawingReducer_select_not_mem s k h],
      fun hk => absurd hk h,
      fun _ => by rw [drawingReducer_select_not_mem s k h],
      fun _ => ?_,
      fun hk => absurd hk h⟩
    have hmem : k ∈ s.selectedObjects ++ [k] := by simp
    rw [drawingReducer_select_not_mem s k h,
      drawingReducer_select_mem _ k hmem]
    show List.filter (fun i => decide (i ≠ k)) (s.selectedObjects ++ [k])
      = s.selectedObjects
    rw [List.filter_append]
    have hk1 : List.filter (fun i => decide (i ≠ k)) [k] = [] := by simp
    have hk2 : List.filter (fun i => decide (i ≠ k)) s.selectedObjects
        = s.selectedObjects :=
      List.filter_eq_self.mpr fun a ha =>
        decide_eq_true fun he => h (he ▸ ha)
    rw [hk1, hk2, List.append_nil]

/-- With the running flag down, an animation frame is a no-op (helper:
`p.draw` only calls `update()` when `isRunning`; `display()` is pure). -/
theorem stepEvent_frame_not_running {σ : Type} (update resetFn : σ → σ)
    (s : Simulations.SketchState σ) (h : s.running = false) :
    Simulations.stepEvent update resetFn s Simulations.SimEvent.frame = s := by
  simp [Simulations.stepEvent, h]

/-- While no `start` occurs, the running flag stays down and frames can
be erased from the event sequence (helper). -/
theorem runEvents_erase_frames {σ : Type} (update resetFn : σ → σ)
    (events : List Simulations.SimEvent) :
    ∀ (t : Simulations.SketchState σ), t.running = false →
      Simulations.SimEvent.start ∉ events →
      Simulations.runEvents update resetFn events t
        = Simulations.runEvents update resetFn
            (events.filter fun e => e ≠ Simulations.SimEvent.frame) t := by
  induction events with
  | nil => intro t _ _; rfl
  | cons e tl ih =>
    intro t ht hs
    have hs' : Simulations.SimEvent.start ∉ tl := fun hm =>
      hs (List.mem_cons_of_mem _ hm)
    cases e with
    | frame =>
        have heq : Simulations.runEvents update resetFn
            (Simulations.SimEvent.frame :: tl) t
          = Simulations.runEvents update resetFn tl t := by
          show Simulations.runEvents update resetFn tl
              (Simulations.stepEvent update resetFn t
                Simulations.SimEvent.frame)
            = Simulations.runEvents update resetFn tl t
          rw [stepEvent_frame_not_running update resetFn t ht]
        rw [heq, ih t ht hs']
        congr 1
    | start => exact absurd (List.mem_cons_self _ _) hs
    | pause =>
        have hstep : (Simulations.stepEvent update resetFn t
            Simulations.SimEvent.pause).running = false := rfl
        have := ih _ hstep hs'
        simpa [Simulations.runEvents, List.filter_cons] using this
    | reset =>
        have hstep : (Simulations.stepEvent update resetFn t
            Simulations.SimEvent.reset).running = false := rfl
        have := ih _ hstep hs'
        simpa [Simulations.runEvents, List.filter_cons] using this

/-- C4: from a pause until the next start, animation frames never
mutate a simulation's physical state: after a `pause`, any sequence of
events not containing `start` behaves exactly like the same sequence
with all frames removed (so `update()` is never called while the
running flag is false), and this holds in particular for the four
sketches — pendulum, wave, gravity and electric field — whose `p.draw`
callbacks all read `if (isRunning) update()`. -/
theorem frames_do_not_mutate_while_paused
    (events : List Simulations.SimEvent)
    (h : Simulations.SimEvent.start ∉ events) :
    (∀ (σ : Type) (update resetFn : σ → σ)
        (s : Simulations.SketchState σ),
      Simulations.runEvents update resetFn events
          (Simulations.stepEvent update resetFn s Simulations.SimEvent.pause)
        = Simulations.runEvents update resetFn
            (events.filter fun e => e ≠ Simulations.SimEvent.frame)
            (Simulations.stepEvent update resetFn s
              Simulations.SimEvent.pause)) ∧
    (∀ s : Simulations.SketchState Simulations.PendState,
      Simulations.runEvents Simulations.pendUpdate Simulations.pendReset
          events (Simulations.stepEvent Simulations.pendUpdate
            Simulations.pendReset s Simulations.SimEvent.pause)
        = Simulations.runEvents Simulations.pendUpdate Simulations.pendReset
            (events.filter fun e => e ≠ Simulations.SimEvent.frame)
            (Simulations.stepEvent Simulations.pendUpdate
              Simulations.pendReset s Simulations.SimEvent.pause)) ∧
    (∀ s : Simulations.SketchState Simulations.WaveState,
      Simulations.runEvents Simulations.waveUpdate Simulations.waveReset
          events (Simulations.stepEvent Simulations.waveUpdate
            Simulations.waveReset s Simulations.SimEvent.pause)
        = Simulations.runEvents Simulations.waveUpdate Simulations.waveReset
            (events.filter fun e => e ≠ Simulations.SimEvent.frame)
            (Simulations.stepEvent Simulations.waveUpdate
              Simulations.waveReset s Simulations.SimEvent.pause)) ∧
    (∀ (draw : ℕ → ℝ) (s : Simulations.SketchState Simulations.GravState),
      Simulations.runEvents Simulations.gravUpdate
          (Simulations.gravReset draw) events
          (Simulations.stepEvent Simulations.gravUpdate
            (Simulations.gravReset draw) s Simulations.SimEvent.pause)
        = Simulations.runEvents Simulations.gravUpdate
            (Simulations.gravReset draw)
            (events.filter fun e => e ≠ Simulations.SimEvent.frame)
            (Simulations.stepEvent Simulations.gravUpdate
              (Simulations.gravReset draw) s Simulations.SimEvent.pause)) ∧
    (∀ s : Simulations.SketchState Simulations.ElecState,
      Simulations.runEvents Simulations.elecUpdate Simulations.elecReset
          events (Simulations.stepEvent Simulations.elecUpdate
            Simulations.elecReset s Simulations.SimEvent.pause)
        = Simulations.runEvents Simulations.elecUpdate Simulations.elecReset
            (events.filter fun e => e ≠ Simulations.SimEvent.frame)
            (Simulations.stepEvent Simulations.elecUpdate
              Simulations.elecReset s Simulations.SimEvent.pause)) := by
  have key : ∀ (σ : Type) (update resetFn : σ → σ)
      (s : Simulations.SketchState σ),
      Simulations.runEvents update resetFn events
          (Simulations.stepEvent update resetFn s Simulations.SimEvent.pause)
        = Simulations.runEvents update resetFn
            (events.filter fun e => e ≠ Simulations.SimEvent.frame)
            (Simulations.stepEvent update resetFn s
              Simulations.SimEvent.pause) := by
    intro σ update resetFn s
    exact runEvents_erase_frames update resetFn events _ rfl h
  exact ⟨key, fun s => key _ _ _ s, fun s => key _ _ _ s,
    fun draw s => key _ _ _ s, fun s => key _ _ _ s⟩

/-- Witness for `frames_do_not_mutate_while_paused`: pausing a running
counter sketch and then running frame, reset, frame is the same as
running just the reset. -/
theorem frames_do_not_mutate_while_paused_witness :
    Simulations.runEvents Nat.succ (fun _ => 0)
        [Simulations.SimEvent.frame, Simulations.SimEvent.reset,
          Simulations.SimEvent.frame]
        (Simulations.stepEvent Nat.succ (fun _ => 0)
          { running := true, phys := 5 } Simulations.SimEvent.pause)
      = Simulations.runEvents Nat.succ (fun _ => 0)
          ([Simulations.SimEvent.frame, Simulations.SimEvent.reset,
            Simulations.SimEvent.frame].filter
              fun e => e ≠ Simulations.SimEvent.frame)
          (Simulations.stepEvent Nat.succ (fun _ => 0)
            { running := true, phys := 5 } Simulations.SimEvent.pause) :=
  (frames_do_not_mutate_while_paused
      [Simulations.SimEvent.frame, Simulations.SimEvent.reset,
        Simulations.SimEvent.frame] (by decide)).1
    ℕ Nat.succ (fun _ => 0) { running := true, phys := 5 }

/-- One pendulum update changes the trail length to `length + 1`, less
the point shifted off when the bound is exceeded (helper). -/
theorem pendUpdate_trail_length (s : Simulations.PendState) :
    (Simulations.pendUpdate s).trail.length
      = if s.maxTrailLength < s.trail.length + 1 then s.trail.length
        else s.trail.length + 1 := by
  simp [Simulations.pendUpdate, apply_ite List.length]

/-- Every pendulum operation keeps `maxTrailLength = 50` and the trail
length within the bound (helper). -/
theorem applyPendOp_invariant (s : Simulations.PendState)
    (op : Simulations.PendOp) (h50 : s.maxTrailLength = 50)
    (hlen : s.trail.length ≤ 50) :
    (Simulations.applyPendOp s op).maxTrailLength = 50 ∧
    (Simulations.applyPendOp s op).trail.length ≤ 50 := by
  cases op with
  | update =>
      refine ⟨by simpa [Simulations.applyPendOp, Simulations.pendUpdate]
        using h50, ?_⟩
      show (Simulations.pendUpdate s).trail.length ≤ 50
      rw [pendUpdate_trail_length, h50]
      split
      · exact hlen
      · omega
  | reset => exact ⟨by simpa [Simulations.applyPendOp,
      Simulations.pendReset] using h50, by
        simp [Simulations.applyPendOp, Simulations.pendReset]⟩
  | setLength v => exact ⟨by simpa [Simulations.applyPendOp,
      Simulations.pendSetLength] using h50, by
        simpa [Simulations.applyPendOp, Simulations.pendSetLength]
          using hlen⟩
  | setInitialAngle v => exact ⟨by simpa [Simulations.applyPendOp,
      Simulations.pendSetInitialAngle, Simulations.pendReset] using h50, by
        simp [Simulations.applyPendOp, Simulations.pendSetInitialAngle,
          Simulations.pendReset]⟩
  | setGravity v => exact ⟨by simpa [Simulations.applyPendOp,
      Simulations.pendSetGravity] using h50, by
        simpa [Simulations.applyPendOp, Simulations.pendSetGravity]
          using hlen⟩

/-- C10: the pendulum trail never exceeds `maxTrailLength` (50) points
after any sequence of `update`, `reset` and setter calls from the
freshly constructed simulation; each `update` pushes exactly one point
and shifts the oldest out whenever the bound is exceeded, and `reset`
empties the trail. -/
theorem pendulum_trail_bounded (width : ℝ)
    (ops : List Simulations.PendOp) :
    ((Simulations.applyPendOps ops (Simulations.pendInit width)).trail.length
        ≤ 50) ∧
    (∀ s : Simulations.PendState,
      (Simulations.pendUpdate s).trail.length
        = if s.maxTrailLength < s.trail.length + 1 then s.trail.length
          else s.trail.length + 1) ∧
    (∀ s : Simulations.PendState, (Simulations.pendReset s).trail = []) := by
  refine ⟨?_, pendUpdate_trail_length, fun s => rfl⟩
  have main : ∀ (l : List Simulations.PendOp) (t : Simulations.PendState),
      t.maxTrailLength = 50 → t.trail.length ≤ 50 →
      (Simulations.applyPendOps l t).maxTrailLength = 50 ∧
      (Simulations.applyPendOps l t).trail.length ≤ 50 := by
    intro l
    induction l with
    | nil => exact fun t h1 h2 => ⟨h1, h2⟩
    | cons op tl ih =>
        intro t h1 h2
        have hstep := applyPendOp_invariant t op h1 h2
        exact ih _ hstep.1 hstep.2
  exact (main ops (Simulations.pendInit width) rfl (by norm_num
    [Simulations.pendInit, Simulations.pendReset])).2

/-- C5 counterexample: the gravity simulation's reset does not restore
the initial state — it assigns fresh random angles.  Concretely, on the
just-constructed 300×200 gravity simulation, a reset whose random draws
are all `1/4` leaves particle 0 at angle `π/2`, while its initial angle
is `0`. -/
theorem gravity_reset_not_initial_state :
    ((Simulations.gravReset (fun _ => 1 / 4)
        (Simulations.gravInit 300 200)).particles.head?.map
          Simulations.GravParticle.angle = some (Real.pi / 2)) ∧
    ((Simulations.gravInit 300 200).particles.head?.map
        Simulations.GravParticle.angle = some 0) ∧
    Real.pi / 2 ≠ 0 := by
  refine ⟨?_, ?_, ne_of_gt (by positivity)⟩
  · show some ((1 / 4 : ℝ) * (2 * Real.pi)) = some (Real.pi / 2)
    congr 1
    ring
  · show some ((2 * Real.pi / (5 : ℕ)) * ((0 : ℕ) : ℝ)) = some 0
    norm_num

/-- C5 (amended): for every simulation the reset control sets the
running flag to false and calls the simulation's `reset()`.  The
pendulum's reset restores the angle to the configured initial angle
(falling back to `π/6` when none is configured, or when the configured
angle is `0`, which JavaScript `||` treats as falsy) with zero angular
velocity and acceleration and an empty trail; the wave's reset sets
time to 0; the electric-field reset regenerates the field lines
deterministically from the current charges; the gravity reset empties
the particle trails but assigns each particle a fresh random angle, so
it does not restore the constructor's initial state. -/
theorem reset_control_restores_deterministic_state :
    (∀ (σ : Type) (update resetFn : σ → σ)
        (st : Simulations.SketchState σ),
      Simulations.stepEvent update resetFn st Simulations.SimEvent.reset
        = { running := false, phys := resetFn st.phys }) ∧
    (∀ s : Simulations.PendState,
      (Simulations.pendReset s).angleVel = 0 ∧
      (Simulations.pendReset s).angleAcc = 0 ∧
      (Simulations.pendReset s).trail = [] ∧
      (s.initialAngle = none →
        (Simulations.pendReset s).angle = Real.pi / 6) ∧
      (∀ a : ℝ, s.initialAngle = some a → a ≠ 0 →
        (Simulations.pendReset s).angle = a)) ∧
    (∀ s : Simulations.WaveState,
      Simulations.waveReset s = { s with time := 0 }) ∧
    (∀ s : Simulations.ElecState,
      Simulations.elecReset s
        = { s with
              fieldLines := Simulations.generateFieldLines s.width s.height
                s.charge1 s.charge2 }) ∧
    (∀ (draw : ℕ → ℝ) (s : Simulations.GravState),
      (Simulations.gravReset draw s).particles.all
        (fun p => p.trail.isEmpty) = true) := by
  refine ⟨fun σ u r st => rfl, fun s => ⟨rfl, rfl, rfl, ?_, ?_⟩,
    fun s => rfl, fun s => rfl, ?_⟩
  · intro h
    simp [Simulations.pendReset, Simulations.jsOrReal, h]
  · intro a ha h0
    simp [Simulations.pendReset, Simulations.jsOrReal, ha, h0]
  · intro draw s
    rw [List.all_eq_true]
    intro p hp
    simp only [Simulations.gravReset, List.mapIdx_eq_enum_map,
      List.mem_map] at hp
    obtain ⟨⟨i, q⟩, -, rfl⟩ := hp
    rfl

/-- Witness for `reset_control_restores_deterministic_state`: resetting
the freshly constructed pendulum (no configured angle yet) restores the
default angle `π/6`. -/
theorem reset_control_restores_deterministic_state_witness :
    (Simulations.pendReset (Simulations.pendInit 400)).angle
      = Real.pi / 6 :=
  (reset_control_restores_deterministic_state.2.1
      (Simulations.pendInit 400)).2.2.2.1 rfl

/-- Reading a key is unaffected by filtering out a different key
(helper). -/
theorem getItem_filter_ne (k bad : String) (h : k ≠ bad)
    (s : Storage.Store) :
    Storage.getItem k (List.filter (fun kv => kv.1 ≠ bad) s)
      = Storage.getItem k s := by
  induction s with
  | nil => rfl
  | cons kv tl ih =>
    by_cases h1 : kv.1 = bad
    · have hk : ¬ kv.1 = k := fun he => h (he ▸ h1)
      rw [List.filter_cons_of_neg (by simp [h1]), ih]
      simp [Storage.getItem, hk]
    · rw [List.filter_cons_of_pos (by simp [h1])]
      by_cases h2 : kv.1 = k
      · simp [Storage.getItem, h2]
      · simp only [Storage.getItem, h2, if_false]
        simpa using ih

/-- Writing one key leaves every other key unchanged (helper). -/
theorem getItem_setItem_ne (k bad v : String) (h : k ≠ bad)
    (s : Storage.Store) :
    Storage.getItem k (Storage.setItem bad v s) = Storage.getItem k s := by
  have hbk : ¬ bad = k := fun he => h he.symm
  calc Storage.getItem k (Storage.setItem bad v s)
      = Storage.getItem k (List.filter (fun kv => kv.1 ≠ bad) s) := by
        simp [Storage.setItem, Storage.getItem, hbk]
    _ = Storage.getItem k s := getItem_filter_ne k bad h s

/-- C6 counterexample: the program persists more than form drafts —
submitting the contact form stores the submitted message list under
`contact_messages`, and the performance toggle stores the chosen mode
under `physicslearn-performance-mode`; neither key is a form draft. -/
theorem storage_beyond_form_drafts :
    (Storage.getItem "contact_messages"
        (Storage.submitContactFormStore "[]" []) = some "[]") ∧
    "contact_messages" ∉ Storage.formDraftKeys ∧
    (Storage.getItem "physicslearn-performance-mode"
        (Storage.saveUserPreference true []) = some "advanced") ∧
    "physicslearn-performance-mode" ∉ Storage.formDraftKeys :=
  ⟨rfl, by decide, rfl, by decide⟩

/-- C6 (amended): all persistent state is plain key/value entries in
browser local storage, under the ten fixed keys enumerated in
`allStorageWriteKeys`: besides the two form drafts these hold submitted
contact messages, mock-auth registration and login data, the theme, the
recent forum searches and the performance-mode preference.  The drawn
shape list is kept only in memory (`drawingReducer` maps state to state
and no storage operation stores it): every storage write leaves all
keys outside `allStorageWriteKeys` — and in particular any key for
drawn shapes — untouched. -/
theorem storage_writes_only_enumerated_keys
    (k : String) (hk : k ∉ Storage.allStorageWriteKeys)
    (s : Storage.Store)
    (draft msgs rdraft userData searches now email pw : String)
    (adv dark : Bool) :
    (Storage.getItem k (Storage.contactAutoSave draft s)
        = Storage.getItem k s) ∧
    (Storage.getItem k (Storage.submitContactFormStore msgs s)
        = Storage.getItem k s) ∧
    (Storage.getItem k (Storage.registrationAutoSave rdraft s)
        = Storage.getItem k s) ∧
    (Storage.getItem k (Storage.simulateRegistrationStore userData s)
        = Storage.getItem k s) ∧
    (Storage.getItem k (Storage.simulateLoginStore email pw now s)
        = Storage.getItem k s) ∧
    (Storage.getItem k (Storage.toggleThemeStore dark s)
        = Storage.getItem k s) ∧
    (Storage.getItem k (Storage.trackSearchAnalyticsStore searches s)
        = Storage.getItem k s) ∧
    (Storage.getItem k (Storage.saveUserPreference adv s)
        = Storage.getItem k s) ∧
    Storage.formDraftKeys ⊆ Storage.allStorageWriteKeys := by
  have hne : ∀ key ∈ Storage.allStorageWriteKeys, k ≠ key :=
    fun key hkey he => hk (he ▸ hkey)
  refine ⟨getItem_setItem_ne k _ _ (hne _ (by decide)) s,
    getItem_setItem_ne k _ _ (hne _ (by decide)) s,
    getItem_setItem_ne k _ _ (hne _ (by decide)) s,
    ?_, ?_,
    getItem_setItem_ne k _ _ (hne _ (by decide)) s,
    getItem_setItem_ne k _ _ (hne _ (by decide)) s,
    getItem_setItem_ne k _ _ (hne _ (by decide)) s,
    by decide⟩
  · show Storage.getItem k
        (Storage.setItem "registration_pending" "true"
          (Storage.setItem "user_data" userData s)) = Storage.getItem k s
    rw [getItem_setItem_ne k _ _ (hne _ (by decide)),
      getItem_setItem_ne k _ _ (hne _ (by decide))]
  · by_cases hcred : email = "demo@physicslearn.com" ∧ pw = "demo123"
    · show Storage.getItem k
          (if email = "demo@physicslearn.com" ∧ pw = "demo123" then
            Storage.setItem "user_email" email
              (Storage.setItem "user_token" ("token_" ++ now) s)
          else s) = Storage.getItem k s
      rw [if_pos hcred,
        getItem_setItem_ne k _ _ (hne _ (by decide)),
        getItem_setItem_ne k _ _ (hne _ (by decide))]
    · show Storage.getItem k
          (if email = "demo@physicslearn.com" ∧ pw = "demo123" then
            Storage.setItem "user_email" email
              (Storage.setItem "user_token" ("token_" ++ now) s)
          else s) = Storage.getItem k s
      rw [if_neg hcred]

/-- Witness for `storage_writes_only_enumerated_keys`: a hypothetical
`drawn_shapes` key is untouched by the performance-mode write. -/
theorem storage_writes_only_enumerated_keys_witness :
    Storage.getItem "drawn_shapes" (Storage.saveUserPreference true [])
      = Storage.getItem "drawn_shapes" ([] : Storage.Store) :=
  (storage_writes_only_enumerated_keys "drawn_shapes" (by decide) []
      "" "" "" "" "" "" "" "" true true).2.2.2.2.2.2.2.1

/-- C7 counterexample: `useDrawing` signals an error to its caller by
throwing — invoked outside a `DrawingProvider` (no context value), it
throws `Error('useDrawing must be used within a DrawingProvider')`
rather than returning a validation message or warning. -/
theorem useDrawing_throws_outside_provider :
    Validation.useDrawing none
      = Except.error "useDrawing must be used within a DrawingProvider" :=
  rfl

/-- C7 (amended): handled error conditions are surfaced as form-field
validation messages (`validateField` totally returns a flag and a
message, with a nonempty message exactly when the field is invalid) or
as caught-and-shown form errors (`handleLogin` catches the rejection of
`simulateLogin` and shows a message instead of rethrowing) — except
that the `useDrawing` hook throws an `Error` when called outside a
`DrawingProvider`, and returns the context value otherwise. -/
theorem errors_surfaced_as_messages :
    (∀ c : Validation.DrawingCtx,
      Validation.useDrawing (some c) = Except.ok c) ∧
    (∀ f : Validation.FormField,
      ((Validation.validateField f).1 = false ↔
        (Validation.validateField f).2 ≠ "")) ∧
    (∀ email pw : String,
      Validation.simulateLogin email pw = Except.error "Invalid credentials" →
      Validation.handleLogin email pw
        = Validation.LoginOutcome.errorShown
            "Invalid email or password. Please try again.") := by
  refine ⟨fun c => rfl, ?_, ?_⟩
  · intro f
    unfold Validation.validateField
    split_ifs <;> try simp
    all_goals split_ifs <;> simp
  · intro email pw herr
    unfold Validation.handleLogin
    rw [herr]

/-- Witness for `errors_surfaced_as_messages`: logging in with wrong
credentials surfaces a form error message, not an exception. -/
theorem errors_surfaced_as_messages_witness :
    Validation.handleLogin "someone@example.com" "hunter2"
      = Validation.LoginOutcome.errorShown
          "Invalid email or password. Please try again." :=
  errors_surfaced_as_messages.2.2 "someone@example.com" "hunter2" rfl

/-- Witness for `selectObject_toggles_membership`: on the initial state
with selection `[5]`, selecting the absent id `7` twice restores the
selection. -/
theorem selectObject_toggles_membership_witness :
    (CivilEye.drawingReducer
        (CivilEye.drawingReducer
          { CivilEye.initialState with selectedObjects := [5] }
          (CivilEye.DrawingAction.selectObject 7))
        (CivilEye.DrawingAction.selectObject 7)).selectedObjects
      = [5] :=
  (selectObject_toggles_membership
      { CivilEye.initialState with selectedObjects := [5] } 7).2.2.2.1
    (by decide)
